import Mathlib

/-!
Verification development for the gaming-vibe repository: a browser game-collection
tracker with gamepad navigation, an on-screen keyboard, debounced file persistence
and a JSON persistence format.  Each definition below is a shallow embedding of a
function or stateful fragment of the TypeScript source; the source file and symbol
are named in the doc comment of each definition.
-/

/-! ## Data model (src/src/App.tsx, src/src/fileStorage.ts): the Game item -/

/-- Shallow embedding of the Game interface of src/src/App.tsx: an item is
exactly an id, a title and a completed flag. -/
structure Game where
  id : String
  title : String
  completed : Bool
deriving DecidableEq, Repr

/-! ## List operations of App.tsx -/

/-- Shallow embedding of toggleGame of src/src/App.tsx: maps over the list,
negating the completed flag of every item whose id equals the given id and
keeping every other item as it is. -/
def toggleGame (id : String) (games : List Game) : List Game :=
  games.map (fun game => if game.id = id then { game with completed := !game.completed } else game)

/-- Shallow embedding of deleteGame of src/src/App.tsx: keeps exactly the items
whose id differs from the given id. -/
def deleteGameList (id : String) (games : List Game) : List Game :=
  games.filter (fun game => game.id ≠ id)

/-! ## Focus/selection state machine (src/src/App.tsx)

The gamepad variant of App.tsx keeps a games list, a focusedIndex cursor and a
fileSupported flag.  totalElements is recomputed from fileSupported and
games.length; onUp and onDown move the cursor with clamping; deleteGame filters
the list and leaves focusedIndex untouched (there is no effect in App.tsx that
re-clamps focusedIndex when the list shrinks). -/

/-- Shallow embedding of the focus-relevant state of the App component of
src/src/App.tsx. -/
structure AppFocus where
  games : List Game
  focusedIndex : Nat
  fileSupported : Bool
deriving DecidableEq, Repr

/-- Shallow embedding of totalElements of src/src/App.tsx: two file buttons when
the File System Access API is supported, the input field and the add button, and
two controls per game. -/
def totalElements (fileSupported : Bool) (games : List Game) : Nat :=
  (if fileSupported then 2 else 0) + 2 + 2 * games.length

/-- Shallow embedding of the onUp handler of the useGamepad config in
src/src/App.tsx: the cursor moves to max(0, prev - 1).  focusedIndex is a
non-negative integer, so integer max(0, prev - 1) coincides with truncated
subtraction on Nat. -/
def focusUp (s : AppFocus) : AppFocus :=
  { s with focusedIndex := max 0 (s.focusedIndex - 1) }

/-- Shallow embedding of the onDown handler of the useGamepad config in
src/src/App.tsx: the cursor moves to min(totalElements - 1, prev + 1). -/
def focusDown (s : AppFocus) : AppFocus :=
  { s with focusedIndex := min (totalElements s.fileSupported s.games - 1) (s.focusedIndex + 1) }

/-- Shallow embedding of deleteGame of src/src/App.tsx acting on the component
state: the list is filtered and focusedIndex is left unchanged (no re-clamp of
the cursor appears anywhere in the source). -/
def appDeleteGame (id : String) (s : AppFocus) : AppFocus :=
  { s with games := deleteGameList id s.games }

/-- Navigation commands of the focus state machine. -/
inductive FocusCmd where
  | up
  | down
deriving DecidableEq, Repr

/-- Run one Up or Down command of src/src/App.tsx. -/
def focusStep (s : AppFocus) : FocusCmd → AppFocus
  | .up => focusUp s
  | .down => focusDown s

/-- Run a sequence of Up and Down commands of src/src/App.tsx. -/
def focusRun (s : AppFocus) : List FocusCmd → AppFocus
  | [] => s
  | c :: cs => focusRun (focusStep s c) cs

/-! ## Debounced auto-save (src/src/App.tsx, auto-save useEffect)

Every change to the games list clears any pending save timeout and schedules a
new save of the current list 500 ms later; the save executes only if no further
change happens before its deadline.  The model takes the sequence of mutation
times (strictly increasing) with the list value established at each mutation,
and returns the save calls that actually execute, as pairs of execution time
and saved list value. -/

/-- Shallow embedding of the auto-save useEffect of src/src/App.tsx: the pending
save scheduled at a mutation time t (for time t + delay) is cancelled exactly
when the next mutation happens strictly before t + delay; otherwise it executes
at t + delay with the list value captured at t. -/
def debounceSaves {α : Type} (delay : Nat) : List (Nat × α) → List (Nat × α)
  | [] => []
  | (t, s) :: rest =>
    match rest with
    | [] => [(t + delay, s)]
    | (t2, _) :: _ =>
      if t2 < t + delay then debounceSaves delay rest
      else (t + delay, s) :: debounceSaves delay rest

/-! ## Persistence format (src/src/fileStorage.ts)

saveGamesToFile writes the list through the host JSON codec
(JSON.stringify(games)); loadGamesFromFile reads the text back and applies
JSON.parse before validating.  The host codec is modelled at the JSON-value
level: stringify-then-parse is the identity on JSON values (strings, booleans,
arrays and objects with unique keys all round-trip exactly through the host
codec), so saving is modelled as producing the JSON value that stringify
serializes, and loading consumes a parsed JSON value. -/

/-- Shallow embedding of a parsed JSON value: the possible results of
JSON.parse.  Object fields carry unique keys, as produced by the host parser. -/
inductive Json where
  | null
  | bool (b : Bool)
  | str (s : String)
  | num (q : Rat)
  | arr (items : List Json)
  | obj (fields : List (String × Json))

/-- JavaScript property access item[key] on a parsed object: the value of the
first field whose key matches, none when the property is absent. -/
def findField : List (String × Json) → String → Option Json
  | [], _ => none
  | (k, v) :: rest, key => if k = key then some v else findField rest key

/-- Property access on a parsed JSON value: objects look up the field, every
other value has no properties (a fresh array has no id/title/completed
property either). -/
def Json.getField : Json → String → Option Json
  | .obj fields, key => findField fields key
  | _, _ => none

/-- Shallow embedding of the shape predicate used by the filter in
loadGamesFromFile of src/src/fileStorage.ts: the item is a non-null object
whose id and title properties are strings and whose completed property is a
boolean.  In JavaScript typeof item yields object also for arrays, but an
array has none of the three properties, so the arr case is equivalent to the
obj case failing the property checks. -/
def isValidGame (item : Json) : Bool :=
  match item.getField "id", item.getField "title", item.getField "completed" with
  | some (.str _), some (.str _), some (.bool _) => true
  | _, _, _ => false

/-- Reading of one validated item into the Game shape: the id, title and
completed properties, exactly as the application consumes a loaded item. -/
def decodeGame (item : Json) : Option Game :=
  match item.getField "id", item.getField "title", item.getField "completed" with
  | some (.str i), some (.str t), some (.bool c) => some ⟨i, t, c⟩
  | _, _, _ => none

/-- Shallow embedding of the post-parse part of loadGamesFromFile of
src/src/fileStorage.ts: a non-array parse result throws and the catch returns
null (modelled none); an array is filtered by the shape check, a warning is
reported exactly when the filter dropped something, and the remaining valid
elements are returned.  The Bool component is the warning flag. -/
def loadGamesFromParsed (parsed : Json) : Option (List Game × Bool) :=
  match parsed with
  | .arr items =>
    let valid := items.filter isValidGame
    some (valid.filterMap decodeGame, decide (valid.length ≠ items.length))
  | _ => none

/-- Shallow embedding of one element of the JSON value serialized by
saveGamesToFile of src/src/fileStorage.ts: JSON.stringify writes the three
declared fields of a Game in declaration order. -/
def encodeGame (g : Game) : Json :=
  .obj [("id", .str g.id), ("title", .str g.title), ("completed", .bool g.completed)]

/-- Shallow embedding of the JSON value serialized by saveGamesToFile of
src/src/fileStorage.ts: the array of encoded games, in list order. -/
def saveGamesJson (games : List Game) : Json :=
  .arr (games.map encodeGame)

/-! ## On-screen keyboard grid navigator (src/src/OnScreenKeyboard.tsx) -/

/-- Shallow embedding of KEYBOARD_LAYOUT of src/src/OnScreenKeyboard.tsx: four
ten-key rows and a final two-key row. -/
def KEYBOARD_LAYOUT : List (List String) :=
  [["1", "2", "3", "4", "5", "6", "7", "8", "9", "0"],
   ["Q", "W", "E", "R", "T", "Y", "U", "I", "O", "P"],
   ["A", "S", "D", "F", "G", "H", "J", "K", "L", "⌫"],
   ["Z", "X", "C", "V", "B", "N", "M", "!", "?", "✓"],
   ["Space", "Close"]]

/-- Width of a keyboard row, as KEYBOARD_LAYOUT[row].length reads it. -/
def rowLen (row : Nat) : Nat :=
  (KEYBOARD_LAYOUT.getD row []).length

/-- Shallow embedding of the selection state of OnScreenKeyboard.tsx. -/
structure KbState where
  row : Nat
  col : Nat
deriving DecidableEq, Repr

/-- Directional commands of the keyboard navigator. -/
inductive KbCmd where
  | up
  | down
  | left
  | right
deriving DecidableEq, Repr

/-- Shallow embedding of the column re-clamp useEffect of
src/src/OnScreenKeyboard.tsx: after any state change, when selectedCol exceeds
the last column of the selected row it is set to that last column. -/
def kbClamp (s : KbState) : KbState :=
  let maxCol := rowLen s.row - 1
  if s.col > maxCol then { s with col := maxCol } else s

/-- Shallow embedding of one d-pad edge of the handleGamepad effect of
src/src/OnScreenKeyboard.tsx, followed by the re-clamp effect: Up and Down move
the row with clamping into the layout, Left and Right move the column with
clamping into the current row. -/
def kbStep (s : KbState) : KbCmd → KbState
  | .up => kbClamp { s with row := max 0 (s.row - 1) }
  | .down => kbClamp { s with row := min (KEYBOARD_LAYOUT.length - 1) (s.row + 1) }
  | .left => kbClamp { s with col := max 0 (s.col - 1) }
  | .right => kbClamp { s with col := min (rowLen s.row - 1) (s.col + 1) }

/-! ## Gamepad polling hook, single-pad version (src/src/useGamepad.ts)

checkGamepad polls navigator.getGamepads(), picks the first non-null slot,
resets its edge state on identity change, seeds an all-unpressed baseline when
the state array is empty, fires one callback per button edge (pressed now,
not pressed on the previous tick) through a fixed button-index table, fires the
four directional callbacks on edges of the combined d-pad/stick signals, and
reschedules itself; when unmounted it returns immediately. -/

/-- Shallow embedding of one connected pad of a Gamepad snapshot: the pressed
flags of its buttons and its axes values.  Button value floats are only logged
by the source and are omitted. -/
structure Pad where
  buttons : List Bool
  axes : List Rat
deriving DecidableEq, Repr

/-- Shallow embedding of the lastAxisState ref of src/src/useGamepad.ts. -/
structure DirState where
  up : Bool
  down : Bool
  left : Bool
  right : Bool
deriving DecidableEq, Repr

/-- The all-false directional state, the reset value of lastAxisState. -/
def DirState.none : DirState := ⟨false, false, false, false⟩

/-- Shallow embedding of the refs of the useGamepad hook of
src/src/useGamepad.ts that the polling tick reads and writes. -/
structure HookState where
  lastButtonState : List Bool
  lastAxisState : DirState
  lastGamepadIndex : Option Nat
  mounted : Bool
deriving DecidableEq, Repr

/-- The initial ref values of the useGamepad hook: empty button state, all
directional signals unpressed, no known pad index, mounted. -/
def initialHookState : HookState :=
  ⟨[], DirState.none, none, true⟩

/-- The semantic actions dispatched by the hook, one per optional callback of
GamepadConfig. -/
inductive Ev where
  | a
  | b
  | x
  | y
  | start
  | select
  | up
  | down
  | left
  | right
deriving DecidableEq, Repr

/-- Shallow embedding of the switch on the button index in checkGamepad of
src/src/useGamepad.ts, using the fixed Xbox indices BUTTON_A = 0, BUTTON_B = 1,
BUTTON_X = 2, BUTTON_Y = 3, BUTTON_START = 9, BUTTON_SELECT = 8; every other
index dispatches nothing. -/
def buttonEvent (i : Nat) : Option Ev :=
  if i = 0 then some .a
  else if i = 1 then some .b
  else if i = 2 then some .x
  else if i = 3 then some .y
  else if i = 9 then some .start
  else if i = 8 then some .select
  else none

/-- Shallow embedding of gamepads[0] || gamepads[1] || gamepads[2] ||
gamepads[3] in checkGamepad of src/src/useGamepad.ts: the first non-null of the
four slots. -/
def firstGamepad (gps : List (Option Pad)) : Option Pad :=
  gps.getD 0 none <|> gps.getD 1 none <|> gps.getD 2 none <|> gps.getD 3 none

/-- Shallow embedding of the index-finding loop of checkGamepad of
src/src/useGamepad.ts: the selected pad is the first non-null slot, so the
identity comparison finds the first slot holding a pad. -/
def findFirstIdx (gps : List (Option Pad)) : Option Nat :=
  gps.findIdx? (fun g => g.isSome)

/-- The test axes[i] < -0.5 of checkGamepad: a missing axis reads undefined and
the comparison is false. -/
def axisNeg (axes : List Rat) (i : Nat) : Bool :=
  match axes.get? i with
  | some v => decide (v < -(1 / 2 : Rat))
  | none => false

/-- The test axes[i] > 0.5 of checkGamepad: a missing axis reads undefined and
the comparison is false. -/
def axisPos (axes : List Rat) (i : Nat) : Bool :=
  match axes.get? i with
  | some v => decide (v > (1 / 2 : Rat))
  | none => false

/-- The four combined d-pad/stick signals of checkGamepad of
src/src/useGamepad.ts: a directional signal is true when its d-pad button is
pressed or the stick axis passes the 0.5 threshold in its direction. -/
def dirSignals (pad : Pad) : DirState :=
  ⟨pad.buttons.getD 12 false || axisNeg pad.axes 1,
   pad.buttons.getD 13 false || axisPos pad.axes 1,
   pad.buttons.getD 14 false || axisNeg pad.axes 0,
   pad.buttons.getD 15 false || axisPos pad.axes 0⟩

/-- The directional edge events of one tick, in the dispatch order of the source
up, down, left, right: a directional callback fires when its signal is true
now and was false on the previous tick. -/
def dirEvents (prev now : DirState) : List Ev :=
  (if now.up && !prev.up then [Ev.up] else []) ++
  (if now.down && !prev.down then [Ev.down] else []) ++
  (if now.left && !prev.left then [Ev.left] else []) ++
  (if now.right && !prev.right then [Ev.right] else [])

/-- The button-edge loop of checkGamepad: the indices of the buttons of the current pad (in index order) that are pressed now and were not pressed in the
retained previous levels. -/
def firedButtons (prev : List Bool) (pad : Pad) : List Nat :=
  (List.range pad.buttons.length).filter
    (fun i => pad.buttons.getD i false && !(prev.getD i false))

/-- Result of one polling tick: the updated refs, the button indices whose
edge fired (in index order), the callbacks dispatched (button callbacks in
index order, then directional callbacks), and whether the tick rescheduled
itself. -/
structure TickOut where
  state : HookState
  fired : List Nat
  events : List Ev
  resched : Bool
deriving DecidableEq, Repr

/-- Shallow embedding of resetGamepadState of src/src/useGamepad.ts: the button
state array is emptied and all directional signals forced to unpressed. -/
def resetGamepadState (s : HookState) : HookState :=
  { s with lastButtonState := [], lastAxisState := DirState.none }

/-- Shallow embedding of one run of checkGamepad of src/src/useGamepad.ts over
a snapshot of the four pad slots.  The unmounted guard returns immediately; a
missing pad resets the edge state (when a pad had been seen) and reschedules;
otherwise the edge state is reset on slot-identity change, seeded to
all-unpressed when empty, button edges fire through buttonEvent in index
order, directional edges fire next, and the refs are updated. -/
def checkGamepad (s : HookState) (gps : List (Option Pad)) : TickOut :=
  if s.mounted = false then ⟨s, [], [], false⟩
  else
    match firstGamepad gps with
    | none =>
      let s1 := match s.lastGamepadIndex with
        | some _ => resetGamepadState { s with lastGamepadIndex := none }
        | none => s
      ⟨s1, [], [], true⟩
    | some pad =>
      let idx := findFirstIdx gps
      let s1 := if s.lastGamepadIndex = idx then s
        else resetGamepadState { s with lastGamepadIndex := idx }
      let prev := if s1.lastButtonState.length = 0
        then List.replicate pad.buttons.length false
        else s1.lastButtonState
      let fired := firedButtons prev pad
      let newButtons := pad.buttons ++ prev.drop pad.buttons.length
      let now := dirSignals pad
      let evs := fired.filterMap buttonEvent ++ dirEvents s1.lastAxisState now
      ⟨{ s1 with lastButtonState := newButtons, lastAxisState := now }, fired, evs, true⟩

/-- Shallow embedding of the useEffect cleanup of src/src/useGamepad.ts as it
affects the hook refs: the mounted flag is cleared (the pending animation
frame is cancelled at the host, which holds no model state). -/
def teardown (s : HookState) : HookState :=
  { s with mounted := false }

/-- The per-tick fired button indices of a run of consecutive polling ticks. -/
def runFired (s : HookState) : List (List (Option Pad)) → List (List Nat)
  | [] => []
  | g :: rest =>
    let o := checkGamepad s g
    o.fired :: runFired o.state rest

/-- The per-tick dispatched callbacks of a run of consecutive polling ticks. -/
def runEvents (s : HookState) : List (List (Option Pad)) → List (List Ev)
  | [] => []
  | g :: rest =>
    let o := checkGamepad s g
    o.events :: runEvents o.state rest

/-- A snapshot with one pad in slot 0 and the other three slots empty. -/
def padSnap (p : Pad) : List (Option Pad) :=
  [some p, none, none, none]

/-- The all-empty snapshot: no pad connected. -/
def emptySnap : List (Option Pad) :=
  [none, none, none, none]

/-! ## Gamepad polling hook, multi-pad variant (src/unnamed/part_001)

The multi-pad variant of the useGamepad hook keys the edge state by pad slot:
two Maps hold per-slot button and axis state, a Set records which slots are
connected, and checkGamepad loops over every slot of the snapshot, handling
each connected pad independently with its own baseline. -/

/-- Lookup in a Map keyed by pad slot, modelled as an association list with
unique keys. -/
def slotGet {α : Type} : List (Nat × α) → Nat → Option α
  | [], _ => none
  | (k, v) :: rest, i => if k = i then some v else slotGet rest i

/-- Map.set keyed by pad slot: replaces the entry when present, appends it
otherwise. -/
def slotSet {α : Type} : List (Nat × α) → Nat → α → List (Nat × α)
  | [], i, v => [(i, v)]
  | (k, w) :: rest, i, v => if k = i then (i, v) :: rest else (k, w) :: slotSet rest i v

/-- Map.delete keyed by pad slot. -/
def slotDel {α : Type} : List (Nat × α) → Nat → List (Nat × α)
  | [], _ => []
  | (k, w) :: rest, i => if k = i then rest else (k, w) :: slotDel rest i

/-- Shallow embedding of the refs of the multi-pad useGamepad variant of
src/unnamed/part_001: per-slot button state, per-slot axis state, the set of
connected slots, and the mounted flag. -/
structure MultiState where
  lastButtonStates : List (Nat × List Bool)
  lastAxisStates : List (Nat × DirState)
  connectedGamepads : List Nat
  mounted : Bool
deriving DecidableEq, Repr

/-- The initial ref values of the multi-pad variant: empty maps, no connected
slot, mounted. -/
def initialMultiState : MultiState :=
  ⟨[], [], [], true⟩

/-- Shallow embedding of resetGamepadState of src/unnamed/part_001: deletes
the button and axis state entries of one slot. -/
def multiReset (s : MultiState) (i : Nat) : MultiState :=
  { s with lastButtonStates := slotDel s.lastButtonStates i,
           lastAxisStates := slotDel s.lastAxisStates i }

/-- Shallow embedding of one slot iteration of the per-slot loop in
checkGamepad of src/unnamed/part_001: an empty slot cleans up the state of a
previously connected pad; a connected pad is recorded, its button and axis
baselines are seeded when absent, its button edges fire through buttonEvent in
index order, its directional edges fire next, and its per-slot state is
updated. -/
def multiSlot (s : MultiState) (i : Nat) (g : Option Pad) : MultiState × List Ev :=
  match g with
  | none =>
    if s.connectedGamepads.contains i then
      ({ multiReset s i with connectedGamepads := s.connectedGamepads.filter (fun k => k ≠ i) }, [])
    else (s, [])
  | some pad =>
    let s1 := if s.connectedGamepads.contains i then s
      else { s with connectedGamepads := s.connectedGamepads ++ [i] }
    let seeded := slotSet s1.lastButtonStates i (List.replicate pad.buttons.length false)
    let s2 := match slotGet s1.lastButtonStates i with
      | some _ => s1
      | none => { s1 with lastButtonStates := seeded }
    let s3 := match slotGet s2.lastAxisStates i with
      | some _ => s2
      | none => { s2 with lastAxisStates := slotSet s2.lastAxisStates i DirState.none }
    let prev := (slotGet s3.lastButtonStates i).getD []
    let prevAxis := (slotGet s3.lastAxisStates i).getD DirState.none
    let fired := firedButtons prev pad
    let newButtons := pad.buttons ++ prev.drop pad.buttons.length
    let now := dirSignals pad
    let evs := fired.filterMap buttonEvent ++ dirEvents prevAxis now
    ({ s3 with lastButtonStates := slotSet s3.lastButtonStates i newButtons,
               lastAxisStates := slotSet s3.lastAxisStates i now }, evs)

/-- The per-slot loop of checkGamepad of src/unnamed/part_001, iterating the
snapshot slots in increasing index order and concatenating the dispatched
callbacks. -/
def multiLoop (s : MultiState) (i : Nat) : List (Option Pad) → MultiState × List Ev
  | [] => (s, [])
  | g :: rest =>
    let (s1, evs1) := multiSlot s i g
    let (s2, evs2) := multiLoop s1 (i + 1) rest
    (s2, evs1 ++ evs2)

/-- Shallow embedding of one run of checkGamepad of src/unnamed/part_001: the
unmounted guard returns immediately, otherwise every slot is processed
independently and the tick reschedules itself. -/
def multiCheckGamepad (s : MultiState) (gps : List (Option Pad)) :
    MultiState × List Ev × Bool :=
  if s.mounted = false then (s, [], false)
  else
    let (s1, evs) := multiLoop s 0 gps
    (s1, evs, true)

/-! ## Helper lemmas -/

/-- A true entry of a Bool list read through getD with default false lies
inside the list. -/
lemma getD_false_lt {l : List Bool} {b : Nat} (h : l.getD b false = true) : b < l.length := by
  by_contra hb
  push_neg at hb
  rw [List.getD_eq_default _ _ hb] at h
  exact absurd h (by simp)

/-- Occurrences of an index in the filtered range: one when the index is in
range and satisfies the predicate, none otherwise. -/
lemma count_filter_range (n : Nat) (p : Nat → Bool) (b : Nat) :
    (((List.range n).filter p).count b) = if b < n ∧ p b = true then 1 else 0 := by
  by_cases hp : p b = true
  · rw [List.count_filter hp]
    by_cases hb : b < n
    · rw [if_pos ⟨hb, hp⟩]
      exact List.count_eq_one_of_mem (List.nodup_range n) (List.mem_range.mpr hb)
    · rw [if_neg (by tauto)]
      exact List.count_eq_zero_of_not_mem (by simp [List.mem_range]; omega)
  · rw [if_neg (fun h => hp h.2)]
    refine List.count_eq_zero_of_not_mem ?_
    intro hmem
    rw [List.mem_filter] at hmem
    exact hp hmem.2

/-- Only button index 0 dispatches the A callback. -/
lemma count_a_filterMap (l : List Nat) : (l.filterMap buttonEvent).count Ev.a = l.count 0 := by
  rw [List.count_filterMap, List.count_eq_countP]
  apply List.countP_congr
  intro i _
  by_cases h : i = 0
  · subst h; rfl
  · simp only [buttonEvent, if_neg h]
    split_ifs <;> simp [h]

/-- No directional edge dispatches the A callback. -/
lemma count_a_dirEvents (prev now : DirState) : (dirEvents prev now).count Ev.a = 0 := by
  unfold dirEvents
  split_ifs <;> simp

/-! ## C5: debounce coalescing -/

/-- Claim C5 counterexample: with mutations at t = 0, 100, 200 and 600 ms and a
500 ms debounce, exactly one save executes, but it executes at t = 1100 ms
(600 + 500), not at t = 700 ms as the claim states: the t = 600 mutation clears
the timeout that was pending for t = 700. -/
theorem debounce_not_at_700 :
    (debounceSaves 500 [(0, ([] : List Game)), (100, [⟨"1", "A", false⟩]),
      (200, [⟨"1", "A", false⟩, ⟨"2", "B", false⟩]),
      (600, [⟨"2", "B", false⟩])]).map Prod.fst = [1100] ∧ (1100 : Nat) ≠ 700 := by
  exact ⟨rfl, by decide⟩

/-- Claim C5 (amended): given data mutations at t = 0, 100, 200 and 600 ms with
a 500 ms debounce window, exactly one save call occurs, it occurs at
t = 1100 ms, and it contains the list state as of the t = 600 ms mutation;
each new mutation cancels any prior pending save. -/
theorem debounce_coalescing (l0 l1 l2 l3 : List Game) :
    debounceSaves 500 [(0, l0), (100, l1), (200, l2), (600, l3)] = [(1100, l3)] := by
  rfl

/-! ## C9: teardown liveness guard (src/src/useGamepad.ts) -/

/-- Claim C9: teardown of the poll loop is idempotent on the hook state, and a
polling tick that fires after teardown observes the cleared mounted flag and
returns at once: the state is untouched, no button edge fires, no callback is
dispatched, and no further tick is scheduled. -/
theorem teardown_guard (s : HookState) (gps : List (Option Pad)) :
    teardown (teardown s) = teardown s ∧
    checkGamepad (teardown s) gps = ⟨teardown s, [], [], false⟩ := by
  constructor
  · rfl
  · simp [checkGamepad, teardown]

/-! ## C10: frame property of toggleGame (src/src/App.tsx) -/

/-- Claim C10: toggleGame returns a list of the same length and order in which
each item with the given id has exactly its completed field negated (id and
title unchanged), every item with a different id is completely unchanged, and
a list containing no item with the given id is returned unchanged. -/
theorem toggleGame_frame (id : String) (games : List Game) :
    (toggleGame id games).length = games.length ∧
    (∀ i g gNew, games.get? i = some g → (toggleGame id games).get? i = some gNew →
      gNew.id = g.id ∧ gNew.title = g.title ∧
      (g.id = id → gNew.completed = !g.completed) ∧ (g.id ≠ id → gNew = g)) ∧
    ((∀ g, g ∈ games → g.id ≠ id) → toggleGame id games = games) := by
  refine ⟨List.length_map _ _, ?_, ?_⟩
  · intro i g gNew hg hNew
    rw [toggleGame, List.get?_map, hg] at hNew
    simp only [Option.map_some', Option.some.injEq] at hNew
    by_cases hid : g.id = id
    · rw [if_pos hid] at hNew
      subst hNew
      exact ⟨rfl, rfl, fun _ => rfl, fun h => absurd hid h⟩
    · rw [if_neg hid] at hNew
      subst hNew
      exact ⟨rfl, rfl, fun h => absurd h hid, fun _ => rfl⟩
  · intro hnone
    rw [toggleGame]
    have : ∀ g ∈ games, (if g.id = id then { g with completed := !g.completed } else g) = g := by
      intro g hg
      rw [if_neg (hnone g hg)]
    rw [List.map_congr_left this]
    exact List.map_id _

/-- Claim C10 witness: the frame property evaluated on a one-item list, with
both a matching toggle and an id absent from the list. -/
theorem toggleGame_frame_witness :
    (toggleGame "a" [⟨"a", "x", false⟩]).length = 1 ∧
    toggleGame "b" [⟨"a", "x", false⟩] = [⟨"a", "x", false⟩] := by
  exact ⟨(toggleGame_frame "a" [⟨"a", "x", false⟩]).1,
    (toggleGame_frame "b" [⟨"a", "x", false⟩]).2.2 (by decide)⟩

/-! ## C1: focus cursor clamp -/

/-- Games and fileSupported are untouched by the Up and Down handlers. -/
lemma focusStep_frame (s : AppFocus) (c : FocusCmd) :
    (focusStep s c).games = s.games ∧ (focusStep s c).fileSupported = s.fileSupported := by
  cases c <;> exact ⟨rfl, rfl⟩

/-- Claim C1 counterexample: with file buttons absent and one game, three Down
commands legally move the cursor to 3 (totalElements is 4); deleting the game
shrinks totalElements to 2, yet focusedIndex stays 3 instead of becoming
min(3, 2 - 1) = 1 - the source re-clamps only inside the Up and Down handlers,
never on a mutation. -/
theorem focus_shrink_not_reclamped :
    (appDeleteGame "a" (focusRun ⟨[⟨"a", "t", false⟩], 0, false⟩
      [.down, .down, .down])).focusedIndex = 3 ∧
    totalElements false (appDeleteGame "a" (focusRun ⟨[⟨"a", "t", false⟩], 0, false⟩
      [.down, .down, .down])).games = 2 ∧
    (3 : Nat) ≠ min 3 (2 - 1) := by
  exact ⟨rfl, rfl, by decide⟩

/-- Claim C1 (amended): for every sequence of Up and Down commands the focus
cursor stays in the interval from 0 to totalElements - 1 (when it starts
there), and the commands leave the games list and the fileSupported flag
unchanged; a mutation that shrinks the target count (deleteGame) leaves the
cursor unchanged rather than re-clamping it - the cursor is only re-clamped by
the next Down (or Up) command. -/
theorem focus_clamp (s : AppFocus) (cmds : List FocusCmd)
    (hs : s.focusedIndex ≤ totalElements s.fileSupported s.games - 1) :
    ((focusRun s cmds).games = s.games ∧
     (focusRun s cmds).fileSupported = s.fileSupported ∧
     (focusRun s cmds).focusedIndex ≤ totalElements s.fileSupported s.games - 1) ∧
    (∀ id, (appDeleteGame id s).focusedIndex = s.focusedIndex) := by
  refine ⟨?_, fun _ => rfl⟩
  induction cmds generalizing s with
  | nil => exact ⟨rfl, rfl, hs⟩
  | cons c cs ih =>
    have hframe := focusStep_frame s c
    have hstep : (focusStep s c).focusedIndex ≤
        totalElements (focusStep s c).fileSupported (focusStep s c).games - 1 := by
      rw [hframe.1, hframe.2]
      cases c with
      | up =>
        simp only [focusStep, focusUp]
        omega
      | down =>
        simp only [focusStep, focusDown]
        exact Nat.le_trans (Nat.min_le_left _ _) (Nat.le_refl _)
    have h := ih (focusStep s c) hstep
    rw [hframe.1] at h
    rw [hframe.2] at h
    exact h

/-- Claim C1 witness: the amended invariant evaluated from cursor 0 on an empty
list with one Down command, and a delete leaving the cursor unchanged. -/
theorem focus_clamp_witness :
    (focusRun ⟨[], 0, false⟩ [.down]).focusedIndex ≤ totalElements false [] - 1 ∧
    (appDeleteGame "z" ⟨[], 0, false⟩).focusedIndex = 0 := by
  exact ⟨((focus_clamp ⟨[], 0, false⟩ [.down] (by decide)).1).2.2,
    (focus_clamp ⟨[], 0, false⟩ [.down] (by decide)).2 "z"⟩

/-! ## C7: keyboard row-change re-clamp -/

/-- Claim C7: a Down command in the on-screen keyboard moves to the next row
(clamped to the last row) and the column is re-clamped to that row: the new
column is min(col, newRowWidth - 1), hence always inside the new row; in
particular a Down from column 9 of a 10-wide row onto a row of width 2 yields
column 1, never column 9. -/
theorem keyboard_reclamp (r c : Nat) :
    (kbStep ⟨r, c⟩ .down).row = min (KEYBOARD_LAYOUT.length - 1) (r + 1) ∧
    (kbStep ⟨r, c⟩ .down).col = min c (rowLen (min (KEYBOARD_LAYOUT.length - 1) (r + 1)) - 1) ∧
    (kbStep ⟨r, c⟩ .down).col < rowLen ((kbStep ⟨r, c⟩ .down).row) ∧
    (rowLen (min (KEYBOARD_LAYOUT.length - 1) (r + 1)) = 2 → c = 9 →
      kbStep ⟨r, c⟩ .down = ⟨min (KEYBOARD_LAYOUT.length - 1) (r + 1), 1⟩) := by
  have hrowpos : 0 < rowLen (min (KEYBOARD_LAYOUT.length - 1) (r + 1)) := by
    have h4 : min (KEYBOARD_LAYOUT.length - 1) (r + 1) ≤ 4 := by
      simp [KEYBOARD_LAYOUT]
    interval_cases h : min (KEYBOARD_LAYOUT.length - 1) (r + 1) <;> decide
  refine ⟨?_, ?_, ?_, ?_⟩
  · simp only [kbStep, kbClamp]
    split_ifs <;> rfl
  · simp only [kbStep, kbClamp]
    split_ifs with h <;> dsimp only <;> omega
  · have hcol : (kbStep ⟨r, c⟩ .down).col =
        min c (rowLen (min (KEYBOARD_LAYOUT.length - 1) (r + 1)) - 1) := by
      simp only [kbStep, kbClamp]
      split_ifs with h <;> dsimp only <;> omega
    have hrow : (kbStep ⟨r, c⟩ .down).row = min (KEYBOARD_LAYOUT.length - 1) (r + 1) := by
      simp only [kbStep, kbClamp]
      split_ifs <;> rfl
    rw [hcol, hrow]
    omega
  · intro h2 hc
    subst hc
    simp only [kbStep, kbClamp, h2]
    norm_num

/-- Claim C7 witness: from row 3 (ten keys wide) at column 9, Down lands on the
two-key Space/Close row at column 1. -/
theorem keyboard_reclamp_witness :
    rowLen (min (KEYBOARD_LAYOUT.length - 1) (3 + 1)) = 2 ∧
    kbStep ⟨3, 9⟩ .down = ⟨4, 1⟩ := by
  refine ⟨by decide, ?_⟩
  have h := (keyboard_reclamp 3 9).2.2.2 (by decide) rfl
  simpa using h

/-! ## C6 and C8: persistence round-trip and malformed-content filtering -/

/-- Decoding inverts encoding on every Game. -/
lemma decodeGame_encodeGame (g : Game) : decodeGame (encodeGame g) = some g := rfl

/-- Every encoded Game passes the shape check of loadGamesFromFile. -/
lemma isValidGame_encodeGame (g : Game) : isValidGame (encodeGame g) = true := rfl

/-- The shape check succeeds exactly when the three fields decode. -/
lemma isValidGame_iff_decode (j : Json) : isValidGame j = true ↔ (decodeGame j).isSome = true := by
  unfold isValidGame decodeGame
  rcases hid : j.getField "id" with _ | jid
  · simp
  · rcases ht : j.getField "title" with _ | jt
    · cases jid <;> simp
    · rcases hc : j.getField "completed" with _ | jc
      · cases jid <;> cases jt <;> simp
      · cases jid <;> cases jt <;> cases jc <;> simp

/-- Filtering by the shape check before decoding drops nothing that decodes:
the filtered-then-decoded list equals the decoded list. -/
lemma filterMap_decode_filter (items : List Json) :
    (items.filter isValidGame).filterMap decodeGame = items.filterMap decodeGame := by
  induction items with
  | nil => rfl
  | cons j rest ih =>
    by_cases hv : isValidGame j = true
    · rw [List.filter_cons_of_pos hv]
      rw [List.filterMap_cons, List.filterMap_cons]
      cases hd : decodeGame j <;> rw [ih]
    · have hnone : decodeGame j = none := by
        rcases hd : decodeGame j with _ | g
        · rfl
        · exact absurd ((isValidGame_iff_decode j).mpr (by rw [hd]; rfl)) hv
      rw [List.filter_cons_of_neg (by simp [hv])]
      rw [List.filterMap_cons_none hnone, ih]

/-- Decoding inverts encoding elementwise over a whole list. -/
lemma filterMap_decode_map_encode (L : List Game) :
    (L.map encodeGame).filterMap decodeGame = L := by
  induction L with
  | nil => rfl
  | cons g rest ih =>
    rw [List.map_cons, List.filterMap_cons_some (decodeGame_encodeGame g), ih]

/-- Claim C6: loading the JSON value produced by saving a well-formed list of
games reproduces the list exactly, in order and with all field values, and
raises no warning. -/
theorem save_load_roundtrip (L : List Game) :
    loadGamesFromParsed (saveGamesJson L) = some (L, false) := by
  have hfilter : (L.map encodeGame).filter isValidGame = L.map encodeGame := by
    rw [List.filter_eq_self]
    intro j hj
    rcases List.mem_map.mp hj with ⟨g, _, rfl⟩
    exact isValidGame_encodeGame g
  simp only [loadGamesFromParsed, saveGamesJson, hfilter, filterMap_decode_map_encode]
  simp

/-- Claim C8: loading any parsed array never fails: elements failing the
id/title/completed shape check are filtered out, the remaining valid elements
are returned in order, and the non-fatal warning is reported exactly when at
least one element was dropped. -/
theorem malformed_filtering (items : List Json) :
    ∃ r, loadGamesFromParsed (.arr items) = some r ∧
      r.1 = items.filterMap decodeGame ∧
      (r.2 = true ↔ ∃ j ∈ items, isValidGame j = false) := by
  refine ⟨((items.filter isValidGame).filterMap decodeGame,
    decide ((items.filter isValidGame).length ≠ items.length)), rfl, ?_, ?_⟩
  · exact filterMap_decode_filter items
  · simp only [decide_eq_true_eq]
    constructor
    · intro hne
      by_contra hall
      push_neg at hall
      exact hne (List.filter_length_eq_length.mpr (by
        intro a ha
        have := hall a ha
        simp at this
        exact this))
    · intro ⟨j, hj, hfalse⟩ heq
      have := List.filter_length_eq_length.mp heq j hj
      rw [hfalse] at this
      exact absurd this (by simp)

/-- Claim C8 witness: a parsed array holding one valid element, a null and a
bare string loads the valid element and raises the warning. -/
theorem malformed_filtering_witness :
    ∃ r, loadGamesFromParsed (.arr [encodeGame ⟨"i", "t", false⟩, .null, .str "x"]) = some r ∧
      r.1 = [encodeGame ⟨"i", "t", false⟩, Json.null, Json.str "x"].filterMap decodeGame ∧
      r.2 = true := by
  rcases malformed_filtering [encodeGame ⟨"i", "t", false⟩, .null, .str "x"] with ⟨r, h1, h2, h3⟩
  exact ⟨r, h1, h2, h3.mpr ⟨.null, by simp, rfl⟩⟩

lemma firstGamepad_padSnap (p : Pad) : firstGamepad (padSnap p) = some p := rfl

lemma findFirstIdx_padSnap (p : Pad) : findFirstIdx (padSnap p) = some 0 := rfl

lemma firstGamepad_emptySnap : firstGamepad emptySnap = none := rfl

lemma getD_replicate_false (n i : Nat) : (List.replicate n false).getD i false = false := by
  induction n generalizing i with
  | zero => rfl
  | succ m ih =>
    cases i with
    | zero => rfl
    | succ j => exact ih j

lemma checkGamepad_connected (s : HookState) (pad : Pad)
    (hm : s.mounted = true) (hidx : s.lastGamepadIndex = some 0)
    (hne : s.lastButtonState.length ≠ 0) :
    checkGamepad s (padSnap pad) =
      ⟨{ s with lastButtonState := pad.buttons ++ s.lastButtonState.drop pad.buttons.length,
                lastAxisState := dirSignals pad },
       firedButtons s.lastButtonState pad,
       (firedButtons s.lastButtonState pad).filterMap buttonEvent ++
         dirEvents s.lastAxisState (dirSignals pad),
       true⟩ := by
  unfold checkGamepad
  rw [hm]
  simp only [Bool.true_eq_false, if_false, firstGamepad_padSnap, findFirstIdx_padSnap, hidx,
    if_true, if_neg hne, hm]

lemma firedButtons_self (pad : Pad) : firedButtons pad.buttons pad = [] := by
  rw [firedButtons, List.filter_eq_nil_iff]
  intro i _
  simp [Bool.and_not_self]

lemma dirEvents_self (d : DirState) : dirEvents d d = [] := by
  unfold dirEvents
  simp [Bool.and_not_self]

lemma checkGamepad_hold (s : HookState) (pad : Pad)
    (hm : s.mounted = true) (hidx : s.lastGamepadIndex = some 0)
    (hbtn : s.lastButtonState = pad.buttons) (hax : s.lastAxisState = dirSignals pad)
    (hne : pad.buttons.length ≠ 0) :
    checkGamepad s (padSnap pad) = ⟨s, [], [], true⟩ := by
  rw [checkGamepad_connected s pad hm hidx (by rw [hbtn]; exact hne)]
  rw [hbtn, hax, firedButtons_self, dirEvents_self, List.drop_length, List.append_nil]
  rw [← hbtn, ← hax]
  rfl

lemma count_firedButtons (prev : List Bool) (pad : Pad) (b : Nat) :
    (firedButtons prev pad).count b =
      if b < pad.buttons.length ∧ (pad.buttons.getD b false && !(prev.getD b false)) = true
      then 1 else 0 :=
  count_filter_range _ _ _

lemma buttonEvent_inj {i j : Nat} {e : Ev} (hi : buttonEvent i = some e)
    (hj : buttonEvent j = some e) : i = j := by
  unfold buttonEvent at hi hj
  split_ifs at hi hj <;> subst_vars <;>
    injection hi with hi2 <;> injection hj with hj2 <;> subst hi2 <;>
    first
      | rfl
      | exact Ev.noConfusion hj2

lemma count_filterMap_buttonEvent {b : Nat} {e : Ev} (hbe : buttonEvent b = some e)
    (l : List Nat) : (l.filterMap buttonEvent).count e = l.count b := by
  rw [List.count_filterMap, List.count_eq_countP]
  apply List.countP_congr
  intro i _
  by_cases h : i = b
  · subst h
    simp [hbe]
  · have hne : buttonEvent i ≠ some e := fun hc => h (buttonEvent_inj hc hbe)
    simp [hne, h]

lemma count_dirEvents_of_buttonEvent {b : Nat} {e : Ev} (hbe : buttonEvent b = some e)
    (p q : DirState) : (dirEvents p q).count e = 0 := by
  have he : e = Ev.a ∨ e = Ev.b ∨ e = Ev.x ∨ e = Ev.y ∨ e = Ev.start ∨ e = Ev.select := by
    unfold buttonEvent at hbe
    split_ifs at hbe <;> simp_all
  unfold dirEvents
  rcases he with h | h | h | h | h | h <;> subst h <;> split_ifs <;> simp

/-- Claim C2: with a pad steadily occupying slot 0, a button that was not
pressed on the previous tick and is then held pressed across N consecutive
polling ticks has its edge fire exactly once, on the first (transition) tick,
and zero times on every later hold tick and on the release tick; the callback
associated with a mapped button index is likewise dispatched exactly once. -/
theorem edge_idempotence (s : HookState) (pad relPad : Pad) (b n : Nat)
    (hm : s.mounted = true) (hidx : s.lastGamepadIndex = some 0)
    (hlen : s.lastButtonState.length = pad.buttons.length)
    (hprev : s.lastButtonState.getD b false = false)
    (hcur : pad.buttons.getD b false = true)
    (hrel : relPad.buttons.getD b false = false) :
    (runFired s (List.replicate (n + 1) (padSnap pad) ++ [padSnap relPad])).map
      (fun l => l.count b) = 1 :: (List.replicate n 0 ++ [0]) ∧
    (∀ e, buttonEvent b = some e →
      (runEvents s (List.replicate (n + 1) (padSnap pad) ++ [padSnap relPad])).map
        (fun l => l.count e) = 1 :: (List.replicate n 0 ++ [0])) := by
  have hblt : b < pad.buttons.length := getD_false_lt hcur
  have hne : s.lastButtonState.length ≠ 0 := by omega
  have htick1 := checkGamepad_connected s pad hm hidx hne
  have hdrop : s.lastButtonState.drop pad.buttons.length = [] := by
    rw [← hlen]
    exact List.drop_length _
  rw [hdrop, List.append_nil] at htick1
  have hcount1 : (firedButtons s.lastButtonState pad).count b = 1 := by
    rw [count_firedButtons, if_pos (And.intro hblt (by rw [hcur, hprev]; rfl))]
  have haux : ∀ m,
      (runFired { s with lastButtonState := pad.buttons, lastAxisState := dirSignals pad }
        (List.replicate m (padSnap pad) ++ [padSnap relPad])).map (fun l => l.count b)
        = List.replicate m 0 ++ [0] ∧
      (∀ e, buttonEvent b = some e →
        (runEvents { s with lastButtonState := pad.buttons, lastAxisState := dirSignals pad }
          (List.replicate m (padSnap pad) ++ [padSnap relPad])).map (fun l => l.count e)
          = List.replicate m 0 ++ [0]) := by
    intro m
    induction m with
    | zero =>
      have hreltick := checkGamepad_connected
        { s with lastButtonState := pad.buttons, lastAxisState := dirSignals pad } relPad
        hm hidx (by show pad.buttons.length ≠ 0; omega)
      have hcount0 : (firedButtons pad.buttons relPad).count b = 0 := by
        rw [count_firedButtons, if_neg]
        rintro ⟨h1, h2⟩
        rw [hrel] at h2
        simp at h2
      constructor
      · simp only [List.replicate_zero, List.nil_append, runFired, hreltick]
        rw [List.map_cons, List.map_nil, hcount0]
      · intro e hbe
        simp only [List.replicate_zero, List.nil_append, runEvents, hreltick]
        rw [List.map_cons, List.map_nil, List.count_append,
          count_filterMap_buttonEvent hbe, hcount0, count_dirEvents_of_buttonEvent hbe]
    | succ k ih =>
      have hhold := checkGamepad_hold
        { s with lastButtonState := pad.buttons, lastAxisState := dirSignals pad } pad
        hm hidx rfl rfl (by omega)
      constructor
      · rw [List.replicate_succ, List.cons_append]
        simp only [runFired, hhold]
        rw [List.replicate_succ, List.cons_append, List.map_cons, ih.1]
        rfl
      · intro e hbe
        rw [List.replicate_succ, List.cons_append]
        simp only [runEvents, hhold]
        rw [List.replicate_succ, List.cons_append, List.map_cons, ih.2 e hbe]
        rfl
  constructor
  · rw [List.replicate_succ, List.cons_append]
    simp only [runFired, htick1]
    rw [List.map_cons, (haux n).1, hcount1]
  · intro e hbe
    rw [List.replicate_succ, List.cons_append]
    simp only [runEvents, htick1]
    rw [List.map_cons, (haux n).2 e hbe, List.count_append,
      count_filterMap_buttonEvent hbe, hcount1, count_dirEvents_of_buttonEvent hbe]

/-- Claim C2 witness: button 0 held for two ticks after an unpressed tick and
then released fires once, on the transition tick, and dispatches the A
callback once. -/
theorem edge_idempotence_witness :
    (runFired ⟨[false], DirState.none, some 0, true⟩
      (List.replicate 2 (padSnap ⟨[true], []⟩) ++ [padSnap ⟨[false], []⟩])).map
      (fun l => l.count 0) = 1 :: (List.replicate 1 0 ++ [0]) ∧
    (runEvents ⟨[false], DirState.none, some 0, true⟩
      (List.replicate 2 (padSnap ⟨[true], []⟩) ++ [padSnap ⟨[false], []⟩])).map
      (fun l => l.count Ev.a) = 1 :: (List.replicate 1 0 ++ [0]) := by
  have h := edge_idempotence ⟨[false], DirState.none, some 0, true⟩ ⟨[true], []⟩ ⟨[false], []⟩ 0 1
    rfl rfl rfl rfl rfl rfl
  exact ⟨h.1, h.2 Ev.a rfl⟩

/-- A tick with no pad connected dispatches nothing and leaves the hook
mounted with no known pad index. -/
lemma checkGamepad_noPad (s : HookState) (hm : s.mounted = true) :
    (checkGamepad s emptySnap).state.mounted = true ∧
    (checkGamepad s emptySnap).state.lastGamepadIndex = none ∧
    (checkGamepad s emptySnap).fired = [] ∧
    (checkGamepad s emptySnap).events = [] := by
  unfold checkGamepad
  rw [hm]
  simp only [Bool.true_eq_false, if_false, firstGamepad_emptySnap]
  cases h : s.lastGamepadIndex <;> simp [resetGamepadState, hm, h]

/-- A tick that sees a pad in slot 0 while no pad index is known resets the
edge state, seeds the all-unpressed baseline, and diffs the pad against that
baseline. -/
lemma checkGamepad_seeded (s : HookState) (gps : List (Option Pad)) (pad : Pad)
    (hm : s.mounted = true) (hidx : s.lastGamepadIndex = none)
    (hfirst : firstGamepad gps = some pad) (hfind : findFirstIdx gps = some 0) :
    checkGamepad s gps =
      ⟨⟨pad.buttons, dirSignals pad, some 0, true⟩,
       firedButtons (List.replicate pad.buttons.length false) pad,
       (firedButtons (List.replicate pad.buttons.length false) pad).filterMap buttonEvent ++
         dirEvents DirState.none (dirSignals pad),
       true⟩ := by
  have hdrop : List.drop pad.buttons.length (List.replicate pad.buttons.length false) = [] := by
    have h := List.drop_length (List.replicate pad.buttons.length false)
    rwa [List.length_replicate] at h
  obtain ⟨b0, a0, i0, m0⟩ := s
  simp only at hm hidx
  subst hm
  subst hidx
  unfold checkGamepad
  simp [hfirst, hfind, resetGamepadState, hdrop]

/-- Claim C4 (amended): for a pad that disconnects and then reconnects with
button 0 still physically held, the previous-state baseline is re-seeded to
unpressed on the reconnect tick, so the held button is treated as a new press:
the A callback fires exactly once on the reconnect tick (rather than not
firing, as the claim states), and the baseline is re-seeded to the current levels of the pad. -/
theorem reconnect_reseeds_and_fires (s : HookState) (pad : Pad)
    (hm : s.mounted = true) (hheld : pad.buttons.getD 0 false = true) :
    ((checkGamepad (checkGamepad s emptySnap).state (padSnap pad)).events).count Ev.a = 1 ∧
    (checkGamepad (checkGamepad s emptySnap).state (padSnap pad)).state.lastButtonState
      = pad.buttons := by
  obtain ⟨hm1, hidx1, _, _⟩ := checkGamepad_noPad s hm
  rw [checkGamepad_seeded _ (padSnap pad) pad hm1 hidx1 rfl rfl]
  refine ⟨?_, rfl⟩
  rw [List.count_append, count_a_filterMap, count_a_dirEvents, count_firedButtons]
  rw [if_pos (And.intro (getD_false_lt hheld) (by rw [hheld, getD_replicate_false]; rfl))]

/-- Claim C4 counterexample: from the initial hook state, a tick with button 0
held fires A; a disconnect tick follows; the reconnect tick with button 0
still held fires A again - the claim says no callback fires on the reconnect
tick, but the dispatched callback list of that tick is nonempty. -/
theorem reconnect_fires_cex :
    runEvents initialHookState [padSnap ⟨[true], []⟩, emptySnap, padSnap ⟨[true], []⟩]
      = [[Ev.a], [], [Ev.a]] ∧ ([Ev.a] : List Ev) ≠ [] := by
  exact ⟨rfl, by decide⟩

/-- Claim C3 counterexample: with two pads connected in slots 0 and 1, both
transitioning button 0 from unpressed to pressed on the same tick, the shipped
single-pad hook of src/src/useGamepad.ts polls only the first non-null slot
with one shared edge state: the tick dispatches the A callback once, not the
two dispatches that per-pad independence requires. -/
theorem multipad_edge_suppressed :
    (checkGamepad initialHookState [some ⟨[true], []⟩, some ⟨[true], []⟩, none, none]).events
      = [Ev.a] ∧
    (checkGamepad initialHookState [some ⟨[true], []⟩, some ⟨[true], []⟩, none, none]).events.count
      Ev.a ≠ 2 := by
  exact ⟨rfl, by decide⟩

lemma getElem_zero_of_getD {l : List Bool} (h : l.getD 0 false = true) (hb : 0 < l.length) :
    l[0] = true := by
  rw [List.getD_eq_getElem?_getD, List.getElem?_eq_getElem hb] at h
  simpa using h

/-- Claim C3 (amended): when two pads both transition button 0 on the same
tick, the shipped single-pad hook of src/src/useGamepad.ts fires the A
callback exactly once (the simultaneous edge of pad B produces no callback, because
only the first non-null slot is polled and edge state is shared), while the
multi-pad variant of src/unnamed/part_001 tracks per-pad edge state
independently and fires the A callback exactly twice, once per pad. -/
theorem multipad_independence (pA pB : Pad)
    (hA : pA.buttons.getD 0 false = true) (hB : pB.buttons.getD 0 false = true) :
    (checkGamepad initialHookState [some pA, some pB, none, none]).events.count Ev.a = 1 ∧
    (multiCheckGamepad initialMultiState [some pA, some pB, none, none]).2.1.count Ev.a = 2 := by
  constructor
  · rw [checkGamepad_seeded initialHookState [some pA, some pB, none, none] pA rfl rfl rfl rfl]
    rw [List.count_append, count_a_filterMap, count_a_dirEvents, count_firedButtons]
    rw [if_pos (And.intro (getD_false_lt hA) (by rw [hA, getD_replicate_false]; rfl))]
  · simp only [multiCheckGamepad, initialMultiState, multiLoop, multiSlot, multiReset,
      slotGet, slotSet, slotDel]
    simp [List.count_append, count_a_filterMap, count_a_dirEvents, count_firedButtons,
      getD_false_lt hA, getD_false_lt hB, hA, hB, getD_replicate_false,
      getElem_zero_of_getD hA (getD_false_lt hA), getElem_zero_of_getD hB (getD_false_lt hB)]

/-- Claim C3 witness: the two dispatch counts evaluated on two one-button pads
both holding button 0. -/
theorem multipad_independence_witness :
    (checkGamepad initialHookState
      [some ⟨[true], [(1 : Rat)]⟩, some ⟨[true], [(1 : Rat)]⟩, none, none]).events.count Ev.a
      = 1 ∧
    (multiCheckGamepad initialMultiState
      [some ⟨[true], [(1 : Rat)]⟩, some ⟨[true], [(1 : Rat)]⟩, none, none]).2.1.count Ev.a
      = 2 :=
  multipad_independence ⟨[true], [(1 : Rat)]⟩ ⟨[true], [(1 : Rat)]⟩ rfl rfl

/-- Claim C4 witness: the reconnect-tick dispatch count and re-seeded baseline
evaluated on a one-button pad holding button 0. -/
theorem reconnect_reseeds_witness :
    ((checkGamepad (checkGamepad initialHookState emptySnap).state
      (padSnap ⟨[true], []⟩)).events).count Ev.a = 1 ∧
    (checkGamepad (checkGamepad initialHookState emptySnap).state
      (padSnap ⟨[true], []⟩)).state.lastButtonState = [true] :=
  reconnect_reseeds_and_fires initialHookState ⟨[true], []⟩ rfl rfl
